import Mathlib

/-!
Verification of the Resilient Batch Search Engine of the FIG-files repository
(directory `Copper_SOD1`): the retrying HTTP client `robust_api_call` in
`robust_api_handler.py`, the batch slicing and search loops of
`shared_utilities.py` / `full_genome_search_parallel_progress.py`, and the
presence-matrix aggregator `create_genome_role_matrix`.

The Python code is shallowly embedded: the HTTP layer is abstracted as an
oracle giving the outcome of each outbound request, exceptions become
`Except` values, dictionaries of counters become a record of naturals, and
the genome-role matrix dictionary becomes a total function that is `0`
outside the initialized key set (a key absent from the Python dict is never
read by the code being modelled).
-/

namespace FIG

/-- A feature record returned by the remote service
(`robust_api_handler.py` passes the parsed JSON objects through opaquely;
the aggregation code reads only the `genome_id` field, via
`str(feature.get('genome_id', ''))` in `shared_utilities.py` line 237, so
the other provenance fields are omitted from the embedding). -/
structure Feature where
  genome_id : String
deriving DecidableEq, Repr

/-- The `self.stats` counter dictionary of `RobustBVBRCHandler.__init__`
(`robust_api_handler.py` lines 36-42). -/
structure ApiStats where
  total_calls : Nat
  successful_calls : Nat
  timeout_errors : Nat
  http_errors : Nat
  retry_attempts : Nat
deriving DecidableEq, Repr

/-- The all-zero counters set up by the constructor
(`robust_api_handler.py` lines 36-42). -/
def initStats : ApiStats := ⟨0, 0, 0, 0, 0⟩

/-- Outcome of one attempt of the `session.get` call inside
`robust_api_call`: an HTTP response with a status code and parsed JSON
payload, or one of the three exception classes the Python code catches
(`requests.exceptions.Timeout`, `requests.exceptions.ConnectionError`,
and the catch-all `except Exception`). -/
inductive AttemptOutcome where
  | response (code : Nat) (data : List Feature)
  | timeout
  | connError
  | exn
deriving DecidableEq, Repr

/-- Source constant `self.max_retries = 3` (`robust_api_handler.py` line 31). -/
def max_retries : Nat := 3

/-- Source constant `self.base_delay = 1.0` (`robust_api_handler.py` line 32). -/
def base_delay : ℚ := 1

/-- Source constant `self.max_delay = 5.0` (`robust_api_handler.py` line 33). -/
def max_delay : ℚ := 5

/-- Source constant `self.base_timeout = 30` (`robust_api_handler.py` line 29). -/
def base_timeout : Nat := 30

/-- Source constant `self.max_timeout = 120` (`robust_api_handler.py` line 30). -/
def max_timeout : Nat := 120

/-- Per-attempt request timeout,
`timeout = min(self.base_timeout * (2 ** attempt), self.max_timeout)`
(`robust_api_handler.py` line 85). -/
def attempt_timeout (attempt : Nat) : Nat :=
  min (base_timeout * 2 ^ attempt) max_timeout

/-- The retry backoff delay of `robust_api_call` with the jitter term
`random.uniform(0, 1)` removed:
`delay = min(self.base_delay * (2 ** (attempt - 1)) + jitter, self.max_delay)`
(`robust_api_handler.py` line 89).  Computed only for `attempt ≥ 1`. -/
def backoff_delay (attempt : Nat) : ℚ :=
  min (base_delay * 2 ^ (attempt - 1)) max_delay

/-- The retry bookkeeping at the top of each iteration of the attempt loop:
`if attempt > 0: ... self.stats['retry_attempts'] += 1`
(`robust_api_handler.py` lines 87-92; the sleep is untimed here). -/
def bumpRetry (attempt : Nat) (s : ApiStats) : ApiStats :=
  if 0 < attempt then { s with retry_attempts := s.retry_attempts + 1 } else s

/-- One iteration of the `for attempt in range(self.max_retries + 1)` loop of
`robust_api_call` (`robust_api_handler.py` lines 83-138): the
`retry_attempts` increment for `attempt > 0` (line 92), the `total_calls`
increment (line 95), then the branch on the request outcome.  The second
component is `some result` when the iteration returns from the function and
`none` when it falls through to the next attempt (`continue`).  The
`429/503/504` branch and the catch-all status branch of the source perform
the same state change (lines 110-119), so they share the final `response`
case here. -/
def attemptStep (mr attempt : Nat) (o : AttemptOutcome) (s : ApiStats) :
    ApiStats × Option (Bool × List Feature) :=
  let s1 := bumpRetry attempt s
  let s2 := { s1 with total_calls := s1.total_calls + 1 }
  match o with
  | .response code data =>
      if code = 200 then
        ({ s2 with successful_calls := s2.successful_calls + 1 }, some (true, data))
      else if code = 400 then
        ({ s2 with http_errors := s2.http_errors + 1 }, some (false, []))
      else
        ({ s2 with http_errors := s2.http_errors + 1 }, none)
  | .timeout =>
      let s3 := { s2 with timeout_errors := s2.timeout_errors + 1 }
      if attempt = mr then (s3, some (false, [])) else (s3, none)
  | .connError =>
      if attempt = mr then (s2, some (false, [])) else (s2, none)
  | .exn =>
      if attempt = mr then (s2, some (false, [])) else (s2, none)

/-- The attempt loop of `robust_api_call`, driven by the oracle `resp`
giving the outcome of each attempt's request.  `fuel` is the number of
iterations the `range` has left; when it runs out the function falls
through to the final `return False, []` (`robust_api_handler.py` line 140). -/
def robustLoop (resp : Nat → AttemptOutcome) (mr : Nat) :
    Nat → Nat → ApiStats → ApiStats × Bool × List Feature
  | 0, _, s => (s, false, [])
  | fuel + 1, attempt, s =>
      let step := attemptStep mr attempt (resp attempt) s
      match step.2 with
      | some r => (step.1, r)
      | none => robustLoop resp mr fuel (attempt + 1) step.1

/-- Embedding of `robust_api_call` (`robust_api_handler.py` lines 78-140), as a function
of the per-attempt request outcomes, the configured `max_retries` and the
incoming `self.stats`; it returns the final stats together with the
`(success, payload)` pair of the source. -/
def robust_api_call (resp : Nat → AttemptOutcome) (mr : Nat) (s : ApiStats) :
    ApiStats × Bool × List Feature :=
  robustLoop resp mr (mr + 1) 0 s

/-- The retryable conditions enumerated by claim C1: a timeout, a
connection error, or an HTTP response whose status is neither the success
code 200 nor the no-retry code 400 (`robust_api_handler.py` retries every
such status, lines 110-119). -/
def RetryableCondition : AttemptOutcome → Prop
  | .response code _ => code ≠ 200 ∧ code ≠ 400
  | .timeout => True
  | .connError => True
  | .exn => False

instance : DecidablePred RetryableCondition := by
  intro o
  cases o <;> simp [RetryableCondition] <;> infer_instance

/-- The batch slicing of the orchestrator,
`batches = [genome_ids[i:i + batch_size] for i in range(0, len(genome_ids), batch_size)]`
(`full_genome_search_parallel_progress.py` line 59; the same slicing is
performed by `for j in range(0, len(genome_ids), batch_size)` with
`batch_size = 20` in `shared_utilities.py` lines 84-86).  For `b ≥ 1` the
index set `range(0, n, b)` is `[k * b for k in range(ceil(n / b))]` with
`ceil(n / b) = (n + b - 1) / b` in natural division. -/
def genomeBatches (l : List α) (b : Nat) : List (List α) :=
  (List.range ((l.length + b - 1) / b)).map (fun k => (l.drop (k * b)).take b)

/-- Helper recursive chunker, extensionally equal to `genomeBatches` for
positive batch size (`genomeBatches_eq_chunkRec`); the induction vehicle for
the partition proofs. -/
def chunkRec (b : Nat) : List α → List (List α)
  | [] => []
  | a :: l => (a :: l.take (b - 1)) :: chunkRec b (l.drop (b - 1))
termination_by l => l.length
decreasing_by simp [List.length_drop]; omega

/-- The exceptions relevant to the engine: `ValueError` raised by
`search_gene_in_genome` on an unsupported `search_type`
(`robust_api_handler.py` line 154) and `ZeroDivisionError` raised by the
summary statistics of `batch_search_across_genomes` when `search_terms` is
empty (`shared_utilities.py` line 131 divides by `len(search_terms)`). -/
inductive PyError where
  | valueError
  | zeroDivisionError
deriving DecidableEq, Repr

/-- The result dictionary of `search_gene_in_genome`
(`robust_api_handler.py` lines 162-180). -/
structure GenomeSearchResult where
  success : Bool
  genome_id : String
  gene_term : String
  results : List Feature
  count : Nat
deriving DecidableEq, Repr

/-- The per-term summary dictionary `term_summary` built by
`batch_search_across_genomes` (`shared_utilities.py` lines 109-118); the
`track_name` and `genomes_searched` reporting fields are omitted. -/
structure SearchResultR where
  search_term : String
  search_type : String
  features_found : Nat
  success : Bool
  features : List Feature
  genome_coverage : List (String × Nat)
deriving DecidableEq, Repr

/-- Embedding of `search_gene_in_genome` (`robust_api_handler.py` lines 142-180): for the
supported `search_type` values `'gene'` and `'product'` it performs one
`robust_api_call`, abstracted here as the oracle
`call : term → genome_id → (success, payload)`, and wraps the outcome; for
any other `search_type` it raises `ValueError` before any request is made. -/
def search_gene_in_genome (call : String → String → Bool × List Feature)
    (gene_term genome_id search_type : String) :
    Except PyError GenomeSearchResult :=
  if search_type = "gene" ∨ search_type = "product" then
    let r := call gene_term genome_id
    if r.1 then .ok ⟨true, genome_id, gene_term, r.2, r.2.length⟩
    else .ok ⟨false, genome_id, gene_term, [], 0⟩
  else .error .valueError

/-- Embedding of `search_gene_in_genome_batch` (`shared_utilities.py` lines 31-53): one
search per genome of the batch, collected in order; an exception raised by
any search propagates and aborts the remaining genomes. -/
def search_gene_in_genome_batch (call : String → String → Bool × List Feature)
    (search_term search_type : String) :
    List String → Except PyError (List GenomeSearchResult)
  | [] => .ok []
  | g :: gs =>
      match search_gene_in_genome call search_term g search_type with
      | .error e => .error e
      | .ok r =>
          match search_gene_in_genome_batch call search_term search_type gs with
          | .error e => .error e
          | .ok rs => .ok (r :: rs)

/-- The per-result accumulation step of the term loop of
`batch_search_across_genomes` (`shared_utilities.py` lines 92-103): the
accumulator is `(term_results, term_features, genome_coverage)`; the
coverage entry is always appended, and the features and the feature count
grow only for a successful result with a positive count. -/
def accumResult (acc : List Feature × Nat × List (String × Nat))
    (r : GenomeSearchResult) : List Feature × Nat × List (String × Nat) :=
  let cov := acc.2.2 ++ [(r.genome_id, r.count)]
  if r.success = true ∧ 0 < r.count then
    (acc.1 ++ r.results, acc.2.1 + r.count, cov)
  else
    (acc.1, acc.2.1, cov)

/-- The batch loop of `batch_search_across_genomes` for one term
(`shared_utilities.py` lines 83-106): each batch is searched with
`search_gene_in_genome_batch` and folded into the accumulator; an exception
propagates, aborting the remaining batches. -/
def processBatches (call : String → String → Bool × List Feature)
    (search_term search_type : String) :
    List (List String) → List Feature × Nat × List (String × Nat) →
    Except PyError (List Feature × Nat × List (String × Nat))
  | [], acc => .ok acc
  | batch :: rest, acc =>
      match search_gene_in_genome_batch call search_term search_type batch with
      | .error e => .error e
      | .ok rs => processBatches call search_term search_type rest (rs.foldl accumResult acc)

/-- The body of the term loop of `batch_search_across_genomes`
(`shared_utilities.py` lines 75-120): genomes are processed in slices of 20
and consolidated into the `term_summary` dictionary, whose `success` flag is
`term_features > 0` (line 115). -/
def searchTermSummary (call : String → String → Bool × List Feature)
    (search_term : String) (genome_ids : List String) (search_type : String) :
    Except PyError SearchResultR :=
  match processBatches call search_term search_type (genomeBatches genome_ids 20) ([], 0, []) with
  | .error e => .error e
  | .ok acc => .ok ⟨search_term, search_type, acc.2.1, decide (0 < acc.2.1), acc.1, acc.2.2⟩

/-- The term loop of `batch_search_across_genomes`: one summary per search
term, in order; an exception propagates, aborting the remaining terms. -/
def runTerms (call : String → String → Bool × List Feature)
    (genome_ids : List String) (search_type : String) :
    List String → Except PyError (List SearchResultR)
  | [] => .ok []
  | t :: ts =>
      match searchTermSummary call t genome_ids search_type with
      | .error e => .error e
      | .ok r =>
          match runTerms call genome_ids search_type ts with
          | .error e => .error e
          | .ok rs => .ok (r :: rs)

/-- Embedding of `batch_search_across_genomes` (`shared_utilities.py` lines 56-135):
the term loop followed by the batch summary, whose success-rate computation
`successful_terms / len(search_terms) * 100` (line 131) raises
`ZeroDivisionError` when `search_terms` is empty. -/
def batch_search_across_genomes (call : String → String → Bool × List Feature)
    (search_terms genome_ids : List String) (search_type : String) :
    Except PyError (List SearchResultR) :=
  match runTerms call genome_ids search_type search_terms with
  | .error e => .error e
  | .ok rs => if search_terms.length = 0 then .error .zeroDivisionError else .ok rs

/-- The genome-role matrix of `create_genome_role_matrix`
(`shared_utilities.py` lines 222-241), as a total function on
`(genome_id, role)` cells.  The Python dict is initialized to `0` exactly
over `genome_ids × all_roles` and never read outside that key set, so the
total-function model keeps the value `0` there. -/
def PresenceMatrix : Type := String → String → Nat

/-- The assignment `genome_role_matrix[genome_id][role] = 1`
(`shared_utilities.py` line 240). -/
def setCell (m : PresenceMatrix) (g role : String) : PresenceMatrix :=
  fun g2 r2 => if g2 = g ∧ r2 = role then 1 else m g2 r2

/-- The per-feature step of the population loop
(`shared_utilities.py` lines 236-241): the cell is set only when the
feature's genome id is a key of the matrix, i.e. belongs to the declared
`genome_ids`. -/
def applyFeature (genome_ids : List String) (role : String)
    (m : PresenceMatrix) (f : Feature) : PresenceMatrix :=
  if f.genome_id ∈ genome_ids then setCell m f.genome_id role else m

/-- The per-result step of the population loop
(`shared_utilities.py` lines 233-241): every feature of the result is
applied under the result's `search_term` as the role. -/
def applyResult (genome_ids : List String) (m : PresenceMatrix)
    (res : SearchResultR) : PresenceMatrix :=
  res.features.foldl (applyFeature genome_ids res.search_term) m

/-- The population loop over a list of results
(`shared_utilities.py` lines 230-241). -/
def mergeResults (genome_ids : List String) (results : List SearchResultR)
    (m : PresenceMatrix) : PresenceMatrix :=
  results.foldl (applyResult genome_ids) m

/-- The all-zero matrix built by the initialization loop
(`shared_utilities.py` lines 225-226). -/
def initMatrix : PresenceMatrix := fun _ _ => 0

/-- Embedding of `create_genome_role_matrix` (`shared_utilities.py` lines 200-252)
restricted to its `'matrix'` output: the zero-initialized matrix populated
from every result of every track.  The reporting fields of the returned
dict (`'total_features'`, `'tracks_included'`, the echoed key lists) are
omitted; each track dict contributes its `'results'` list, modelled as a
`List SearchResultR`. -/
def create_genome_role_matrix (track_results_list : List (List SearchResultR))
    (genome_ids : List String) : PresenceMatrix :=
  mergeResults genome_ids track_results_list.flatten initMatrix

/-! Theorems: the HTTP Retry Client. -/

@[simp]
theorem bumpRetry_total_calls (a : Nat) (s : ApiStats) :
    (bumpRetry a s).total_calls = s.total_calls := by
  unfold bumpRetry; split <;> rfl

@[simp]
theorem bumpRetry_successful_calls (a : Nat) (s : ApiStats) :
    (bumpRetry a s).successful_calls = s.successful_calls := by
  unfold bumpRetry; split <;> rfl

@[simp]
theorem bumpRetry_timeout_errors (a : Nat) (s : ApiStats) :
    (bumpRetry a s).timeout_errors = s.timeout_errors := by
  unfold bumpRetry; split <;> rfl

@[simp]
theorem bumpRetry_http_errors (a : Nat) (s : ApiStats) :
    (bumpRetry a s).http_errors = s.http_errors := by
  unfold bumpRetry; split <;> rfl

theorem robustLoop_retryable (resp : Nat → AttemptOutcome) (mr : Nat) :
    ∀ (fuel attempt : Nat) (s : ApiStats), attempt + fuel = mr + 1 →
    (∀ i, i ≤ mr → RetryableCondition (resp i)) →
    (robustLoop resp mr fuel attempt s).2 = (false, []) ∧
    (robustLoop resp mr fuel attempt s).1.total_calls = s.total_calls + fuel := by
  intro fuel
  induction fuel with
  | zero => intro attempt s _ _; simp [robustLoop]
  | succ n ih =>
      intro attempt s hsum hr
      have hle : attempt ≤ mr := by omega
      have hra := hr attempt hle
      cases ho : resp attempt with
      | response code data =>
          rw [ho] at hra
          obtain ⟨h200, h400⟩ := hra
          simp only [robustLoop, ho, attemptStep, if_neg h200, if_neg h400]
          refine ⟨(ih (attempt + 1) _ (by omega) hr).1, ?_⟩
          rw [(ih (attempt + 1) _ (by omega) hr).2]
          simp
          omega
      | timeout =>
          by_cases hm : attempt = mr
          · have hn : n = 0 := by omega
            subst hn hm
            simp [robustLoop, ho, attemptStep]
          · simp only [robustLoop, ho, attemptStep, if_neg hm]
            refine ⟨(ih (attempt + 1) _ (by omega) hr).1, ?_⟩
            rw [(ih (attempt + 1) _ (by omega) hr).2]
            simp
            omega
      | connError =>
          by_cases hm : attempt = mr
          · have hn : n = 0 := by omega
            subst hn hm
            simp [robustLoop, ho, attemptStep]
          · simp only [robustLoop, ho, attemptStep, if_neg hm]
            refine ⟨(ih (attempt + 1) _ (by omega) hr).1, ?_⟩
            rw [(ih (attempt + 1) _ (by omega) hr).2]
            simp
            omega
      | exn =>
          rw [ho] at hra
          exact hra.elim

/-- C1: when every attempt fails with a retryable condition (timeout,
connection error, or a retryable HTTP status), `robust_api_call` makes
exactly `max_retries + 1` attempts — `total_calls` grows by exactly
`max_retries + 1`, one per attempt — and then returns `(false, [])`.  The
embedding is a total function, so no exception escapes. -/
theorem claim_C1_retry_bound (resp : Nat → AttemptOutcome) (mr : Nat) (s : ApiStats)
    (hr : ∀ i, i ≤ mr → RetryableCondition (resp i)) :
    (robust_api_call resp mr s).2 = (false, []) ∧
    (robust_api_call resp mr s).1.total_calls = s.total_calls + (mr + 1) :=
  robustLoop_retryable resp mr (mr + 1) 0 s (by omega) hr

/-- Witness for C1: a client that times out on every attempt, with the
source's configured `max_retries = 3`. -/
theorem claim_C1_witness :
    (robust_api_call (fun _ => AttemptOutcome.timeout) max_retries initStats).2 = (false, []) ∧
    (robust_api_call (fun _ => AttemptOutcome.timeout) max_retries initStats).1.total_calls =
      initStats.total_calls + (max_retries + 1) :=
  claim_C1_retry_bound (fun _ => AttemptOutcome.timeout) max_retries initStats
    (fun _ _ => trivial)

/-- C8: when the service returns HTTP 503 on the first three attempts and
200 with one feature on the fourth, `robust_api_call` (with the handler's
`max_retries = 3`) returns success with exactly that feature, increments
`retry_attempts` by exactly 3 and `total_calls` by one per attempt (4 here);
the scenario also pins the remaining counters (`successful_calls + 1`,
`http_errors + 3`, `timeout_errors` unchanged). -/
theorem claim_C8_scenario_c (s : ApiStats) (f : Feature) :
    robust_api_call
        (fun i => if i < 3 then AttemptOutcome.response 503 [] else AttemptOutcome.response 200 [f])
        max_retries s =
      ({ s with total_calls := s.total_calls + 4,
                successful_calls := s.successful_calls + 1,
                http_errors := s.http_errors + 3,
                retry_attempts := s.retry_attempts + 3 }, true, [f]) := by
  simp [robust_api_call, max_retries, robustLoop, attemptStep, bumpRetry]

/-- C9: ignoring jitter, the successive backoff delays
`min(base_delay * 2^(attempt-1), max_delay)` of `robust_api_call` form a
non-decreasing sequence bounded above by `max_delay`. -/
theorem claim_C9_backoff_monotone (attempt : Nat) :
    backoff_delay attempt ≤ backoff_delay (attempt + 1) ∧
    backoff_delay attempt ≤ max_delay := by
  constructor
  · unfold backoff_delay
    refine min_le_min ?_ le_rfl
    have hpow : (2 : ℚ) ^ (attempt - 1) ≤ 2 ^ (attempt + 1 - 1) := by
      apply pow_le_pow_right₀ one_le_two
      omega
    unfold base_delay
    linarith
  · exact min_le_right _ _

/-- C10: an attempt of `robust_api_call` that fails with a connection error
or an unclassified exception increments `total_calls` and leaves
`successful_calls`, `timeout_errors` and `http_errors` unchanged — such
failures are invisible in every ApiStats error counter (`attemptStep` is
the loop body of `robust_api_call`). -/
theorem claim_C10_conn_error_frame (mr a : Nat) (o : AttemptOutcome) (s : ApiStats)
    (h : o = AttemptOutcome.connError ∨ o = AttemptOutcome.exn) :
    (attemptStep mr a o s).1.total_calls = s.total_calls + 1 ∧
    (attemptStep mr a o s).1.successful_calls = s.successful_calls ∧
    (attemptStep mr a o s).1.timeout_errors = s.timeout_errors ∧
    (attemptStep mr a o s).1.http_errors = s.http_errors := by
  rcases h with h | h <;> subst h <;> simp [attemptStep] <;> split <;> simp

/-- Witness for C10: a first-attempt connection error on fresh stats. -/
theorem claim_C10_witness :
    (AttemptOutcome.connError = AttemptOutcome.connError ∨
      AttemptOutcome.connError = AttemptOutcome.exn) ∧
    ((attemptStep 3 0 AttemptOutcome.connError initStats).1.total_calls =
        initStats.total_calls + 1 ∧
      (attemptStep 3 0 AttemptOutcome.connError initStats).1.successful_calls =
        initStats.successful_calls ∧
      (attemptStep 3 0 AttemptOutcome.connError initStats).1.timeout_errors =
        initStats.timeout_errors ∧
      (attemptStep 3 0 AttemptOutcome.connError initStats).1.http_errors =
        initStats.http_errors) :=
  ⟨Or.inl rfl, claim_C10_conn_error_frame 3 0 AttemptOutcome.connError initStats (Or.inl rfl)⟩

/-! Theorems: the batch slicing of the orchestrator. -/

theorem take_cons_of_pos (b : Nat) (hb : 1 ≤ b) (a : α) (t : List α) :
    (a :: t).take b = a :: t.take (b - 1) := by
  cases b with
  | zero => omega
  | succ n => simp [List.take_succ_cons]

theorem ceil_div_cons (b : Nat) (hb : 1 ≤ b) (m : Nat) :
    (m + 1 + b - 1) / b = m / b + 1 := by
  have h2 : m + 1 + b - 1 = m + b := by omega
  rw [h2, Nat.add_div_right _ (by omega : 0 < b)]

theorem ceil_div_drop (b : Nat) (hb : 1 ≤ b) (m : Nat) :
    (m - (b - 1) + b - 1) / b = m / b := by
  rcases le_or_lt (b - 1) m with h | h
  · have h1 : m - (b - 1) + b - 1 = m := by omega
    rw [h1]
  · have h1 : m - (b - 1) + b - 1 = b - 1 := by omega
    rw [h1, Nat.div_eq_of_lt (by omega : b - 1 < b),
      Nat.div_eq_of_lt (by omega : m < b)]

theorem genomeBatches_eq_chunkRec_aux (b : Nat) (hb : 1 ≤ b) :
    ∀ (n : Nat) (l : List α), l.length ≤ n → genomeBatches l b = chunkRec b l := by
  intro n
  induction n with
  | zero =>
      intro l hl
      have hnil : l = [] := List.length_eq_zero.mp (Nat.le_zero.mp hl)
      subst hnil
      simp [genomeBatches, chunkRec, Nat.div_eq_of_lt (by omega : b - 1 < b)]
  | succ n ih =>
      intro l hl
      cases l with
      | nil => simp [genomeBatches, chunkRec, Nat.div_eq_of_lt (by omega : b - 1 < b)]
      | cons a t =>
          have hdl : (t.drop (b - 1)).length ≤ n := by
            simp only [List.length_drop]
            simp only [List.length_cons] at hl
            omega
          have hcount : ((a :: t).length + b - 1) / b = t.length / b + 1 := by
            simp only [List.length_cons]
            exact ceil_div_cons b hb t.length
          have hcount2 : ((t.drop (b - 1)).length + b - 1) / b = t.length / b := by
            simp only [List.length_drop]
            exact ceil_div_drop b hb t.length
          rw [chunkRec, ← ih (t.drop (b - 1)) hdl]
          unfold genomeBatches
          rw [hcount, hcount2, List.range_succ_eq_map, List.map_cons, List.map_map]
          congr 1
          · simpa using take_cons_of_pos b hb a t
          · apply List.map_congr_left
            intro k _
            have harg : Nat.succ k * b = k * b + (b - 1) + 1 := by
              rw [Nat.succ_mul]
              omega
            simp only [Function.comp_apply, harg, List.drop_succ_cons, List.drop_drop]
            rw [Nat.add_comm (k * b) (b - 1)]

theorem genomeBatches_eq_chunkRec (b : Nat) (hb : 1 ≤ b) (l : List α) :
    genomeBatches l b = chunkRec b l :=
  genomeBatches_eq_chunkRec_aux b hb l.length l le_rfl

theorem chunkRec_props (b : Nat) (hb : 1 ≤ b) :
    ∀ (n : Nat) (l : List α), l.length ≤ n →
      (chunkRec b l).flatten = l ∧
      (chunkRec b l).length = (l.length + b - 1) / b ∧
      (∀ c ∈ chunkRec b l, 0 < c.length ∧ c.length ≤ b) ∧
      (∀ c ∈ (chunkRec b l).dropLast, c.length = b) := by
  intro n
  induction n with
  | zero =>
      intro l hl
      have hnil : l = [] := List.length_eq_zero.mp (Nat.le_zero.mp hl)
      subst hnil
      simp [chunkRec, Nat.div_eq_of_lt (by omega : b - 1 < b)]
  | succ n ih =>
      intro l hl
      cases l with
      | nil => simp [chunkRec, Nat.div_eq_of_lt (by omega : b - 1 < b)]
      | cons a t =>
          have hdl : (t.drop (b - 1)).length ≤ n := by
            simp only [List.length_drop]
            simp only [List.length_cons] at hl
            omega
          obtain ⟨ihf, ihl, ihb2, ihd⟩ := ih (t.drop (b - 1)) hdl
          refine ⟨?_, ?_, ?_, ?_⟩
          · rw [chunkRec]
            simp only [List.flatten_cons, ihf]
            rw [List.cons_append, List.take_append_drop]
          · rw [chunkRec]
            simp only [List.length_cons, ihl, List.length_drop]
            rw [ceil_div_drop b hb t.length, ceil_div_cons b hb t.length]
          · intro c hc
            rw [chunkRec] at hc
            rcases List.mem_cons.mp hc with rfl | hc
            · constructor
              · simp
              · simp only [List.length_cons, List.length_take]
                omega
            · exact ihb2 c hc
          · intro c hc
            rw [chunkRec] at hc
            cases hrest : chunkRec b (t.drop (b - 1)) with
            | nil => rw [hrest] at hc; simp at hc
            | cons r rs =>
                rw [hrest] at hc
                rw [List.dropLast_cons₂] at hc
                rcases List.mem_cons.mp hc with rfl | hc
                · have hne : t.drop (b - 1) ≠ [] := by
                    intro hcon
                    rw [hcon] at hrest
                    simp [chunkRec] at hrest
                  have hlen : b - 1 ≤ t.length := by
                    by_contra hcon
                    apply hne
                    apply List.drop_eq_nil_of_le
                    omega
                  simp only [List.length_cons, List.length_take]
                  omega
                · exact ihd c (by rw [hrest]; exact hc)

/-- C2: for every entity list and positive batch size the slicing
comprehension of `search_term_across_genomes` partitions the list exactly —
concatenating the batches yields the original list — the number of batches
is `ceil(N/B)` (`(N + B - 1) / B` in natural division), every batch except
possibly the last has length exactly `B` and every batch is nonempty of
length at most `B`; and `["E1", "E2", "E3"]` with batch size 2 yields
`[["E1", "E2"], ["E3"]]`. -/
theorem claim_C2_partition :
    (∀ (α : Type) (l : List α) (b : Nat), 1 ≤ b →
        (genomeBatches l b).flatten = l ∧
        (genomeBatches l b).length = (l.length + b - 1) / b ∧
        (∀ c ∈ genomeBatches l b, 0 < c.length ∧ c.length ≤ b) ∧
        (∀ c ∈ (genomeBatches l b).dropLast, c.length = b)) ∧
    genomeBatches ["E1", "E2", "E3"] 2 = [["E1", "E2"], ["E3"]] := by
  constructor
  · intro α l b hb
    rw [genomeBatches_eq_chunkRec b hb l]
    exact chunkRec_props b hb l.length l le_rfl
  · rfl

/-- Witness for C2: the universal part applied to the Scenario A input. -/
theorem claim_C2_witness :
    (1 : Nat) ≤ 2 ∧
    ((genomeBatches ["E1", "E2", "E3"] 2).flatten = ["E1", "E2", "E3"] ∧
      (genomeBatches ["E1", "E2", "E3"] 2).length =
        ((["E1", "E2", "E3"] : List String).length + 2 - 1) / 2 ∧
      (∀ c ∈ genomeBatches ["E1", "E2", "E3"] 2, 0 < c.length ∧ c.length ≤ 2) ∧
      (∀ c ∈ (genomeBatches ["E1", "E2", "E3"] 2).dropLast, c.length = 2)) :=
  ⟨by decide, claim_C2_partition.1 String ["E1", "E2", "E3"] 2 (by decide)⟩

/-! Theorems: the Result Aggregator. -/

theorem applyFeatures_cell :
    ∀ (fs : List Feature) (gids : List String) (role : String) (m : PresenceMatrix) (g r : String),
      (fs.foldl (applyFeature gids role) m) g r =
        if g ∈ gids ∧ role = r ∧ ∃ f ∈ fs, f.genome_id = g then 1 else m g r := by
  intro fs
  induction fs with
  | nil =>
      intro gids role m g r
      simp
  | cons f0 fs ih =>
      intro gids role m g r
      rw [List.foldl_cons, ih]
      by_cases hc : g ∈ gids ∧ role = r ∧ ∃ f ∈ f0 :: fs, f.genome_id = g
      · rw [if_pos hc]
        obtain ⟨hg, hr, f, hf, hfg⟩ := hc
        by_cases htail : ∃ f2 ∈ fs, f2.genome_id = g
        · rw [if_pos ⟨hg, hr, htail⟩]
        · rw [if_neg (fun hcon => htail hcon.2.2)]
          have hf0 : f0.genome_id = g := by
            rcases List.mem_cons.mp hf with rfl | hmem
            · exact hfg
            · exact absurd ⟨f, hmem, hfg⟩ htail
          unfold applyFeature
          rw [if_pos (hf0 ▸ hg)]
          unfold setCell
          rw [if_pos ⟨hf0.symm, hr.symm⟩]
      · rw [if_neg hc]
        have htail : ¬(g ∈ gids ∧ role = r ∧ ∃ f ∈ fs, f.genome_id = g) := by
          rintro ⟨hg, hr, f, hf, hfg⟩
          exact hc ⟨hg, hr, f, List.mem_cons_of_mem f0 hf, hfg⟩
        rw [if_neg htail]
        unfold applyFeature
        split_ifs with hmem
        · unfold setCell
          rw [if_neg ?_]
          rintro ⟨hgf, hrr⟩
          exact hc ⟨hgf ▸ hmem, hrr.symm, f0, List.mem_cons_self f0 fs, hgf.symm⟩
        · rfl

theorem mergeResults_cell :
    ∀ (results : List SearchResultR) (gids : List String) (m : PresenceMatrix) (g r : String),
      mergeResults gids results m g r =
        if g ∈ gids ∧ ∃ res ∈ results, res.search_term = r ∧ ∃ f ∈ res.features, f.genome_id = g
        then 1 else m g r := by
  intro results
  induction results with
  | nil =>
      intro gids m g r
      simp [mergeResults]
  | cons res rest ih =>
      intro gids m g r
      show (rest.foldl (applyResult gids) (applyResult gids m res)) g r = _
      rw [show rest.foldl (applyResult gids) (applyResult gids m res) =
            mergeResults gids rest (applyResult gids m res) from rfl, ih]
      rw [show applyResult gids m res =
            res.features.foldl (applyFeature gids res.search_term) m from rfl,
        applyFeatures_cell]
      by_cases h1 : g ∈ gids <;>
        by_cases h2 : ∃ r2 ∈ rest, r2.search_term = r ∧ ∃ f ∈ r2.features, f.genome_id = g <;>
        by_cases h3 : res.search_term = r ∧ ∃ f ∈ res.features, f.genome_id = g <;>
        simp [h1, h2, h3, List.mem_cons]

/-- C6: re-merging the same result list into an already merged matrix is a
no-op, duplicating every track passed to `create_genome_role_matrix` yields
the same matrix as passing it once, and a cell already equal to 1 is never
reset to 0 by any later merge step. -/
theorem claim_C6_idempotent_merge :
    (∀ (gids : List String) (results : List SearchResultR) (m : PresenceMatrix),
        mergeResults gids results (mergeResults gids results m) = mergeResults gids results m) ∧
    (∀ (tracks : List (List SearchResultR)) (gids : List String),
        create_genome_role_matrix (tracks ++ tracks) gids = create_genome_role_matrix tracks gids) ∧
    (∀ (gids : List String) (results : List SearchResultR) (m : PresenceMatrix) (g r : String),
        m g r = 1 → mergeResults gids results m g r = 1) := by
  refine ⟨?_, ?_, ?_⟩
  · intro gids results m
    funext g r
    rw [mergeResults_cell, mergeResults_cell]
    split_ifs <;> rfl
  · intro tracks gids
    funext g r
    unfold create_genome_role_matrix
    rw [List.flatten_append, mergeResults_cell, mergeResults_cell]
    refine if_congr ?_ rfl rfl
    constructor <;> rintro ⟨hg, res, hres, hrest⟩
    · rcases List.mem_append.mp hres with h | h
      · exact ⟨hg, res, h, hrest⟩
      · exact ⟨hg, res, h, hrest⟩
    · exact ⟨hg, res, List.mem_append.mpr (Or.inl hres), hrest⟩
  · intro gids results m g r h
    rw [mergeResults_cell]
    split_ifs with hc
    · rfl
    · exact h

/-- Witness for C6: the monotonicity part applied to an already-set cell. -/
theorem claim_C6_witness :
    (fun (_ _ : String) => 1 : PresenceMatrix) "E1" "copA" = 1 ∧
    mergeResults ["E1"] [] (fun _ _ => 1) "E1" "copA" = 1 :=
  ⟨rfl, claim_C6_idempotent_merge.2.2 ["E1"] [] (fun _ _ => 1) "E1" "copA" rfl⟩

/-- C7: merging any permutation of a result list produces the identical
presence matrix — aggregation is order-independent. -/
theorem claim_C7_commutative_merge (gids : List String)
    (results results2 : List SearchResultR) (m : PresenceMatrix)
    (hperm : results.Perm results2) :
    mergeResults gids results m = mergeResults gids results2 m := by
  funext g r
  rw [mergeResults_cell, mergeResults_cell]
  refine if_congr ?_ rfl rfl
  constructor <;> rintro ⟨hg, res, hres, hrest⟩
  · exact ⟨hg, res, hperm.mem_iff.mp hres, hrest⟩
  · exact ⟨hg, res, hperm.mem_iff.mpr hres, hrest⟩

/-- Witness for C7: two concrete results merged in both orders. -/
theorem claim_C7_witness :
    ([⟨"copA", "gene", 1, true, [⟨"E1"⟩], [("E1", 1)]⟩,
        ⟨"sodA", "gene", 1, true, [⟨"E2"⟩], [("E2", 1)]⟩] : List SearchResultR).Perm
      [⟨"sodA", "gene", 1, true, [⟨"E2"⟩], [("E2", 1)]⟩,
        ⟨"copA", "gene", 1, true, [⟨"E1"⟩], [("E1", 1)]⟩] ∧
    mergeResults ["E1", "E2"]
        [⟨"copA", "gene", 1, true, [⟨"E1"⟩], [("E1", 1)]⟩,
          ⟨"sodA", "gene", 1, true, [⟨"E2"⟩], [("E2", 1)]⟩] initMatrix =
      mergeResults ["E1", "E2"]
        [⟨"sodA", "gene", 1, true, [⟨"E2"⟩], [("E2", 1)]⟩,
          ⟨"copA", "gene", 1, true, [⟨"E1"⟩], [("E1", 1)]⟩] initMatrix :=
  ⟨by decide,
    claim_C7_commutative_merge ["E1", "E2"] _ _ initMatrix (by decide)⟩

/-! Theorems: the Batch Orchestrator engine of `shared_utilities.py`. -/

theorem accumResult_inv (acc : List Feature × Nat × List (String × Nat))
    (r : GenomeSearchResult) (h : acc.1 ≠ [] → 0 < acc.2.1) :
    (accumResult acc r).1 ≠ [] → 0 < (accumResult acc r).2.1 := by
  unfold accumResult
  split_ifs with hc
  · intro _
    have := hc.2
    simp only
    omega
  · exact h

theorem foldl_accum_inv :
    ∀ (rs : List GenomeSearchResult) (acc : List Feature × Nat × List (String × Nat)),
      (acc.1 ≠ [] → 0 < acc.2.1) →
      ((rs.foldl accumResult acc).1 ≠ [] → 0 < (rs.foldl accumResult acc).2.1) := by
  intro rs
  induction rs with
  | nil => intro acc h; exact h
  | cons r rs ih =>
      intro acc h
      rw [List.foldl_cons]
      exact ih _ (accumResult_inv acc r h)

theorem processBatches_inv (call : String → String → Bool × List Feature)
    (term st : String) :
    ∀ (bs : List (List String)) (acc out : List Feature × Nat × List (String × Nat)),
      (acc.1 ≠ [] → 0 < acc.2.1) →
      processBatches call term st bs acc = Except.ok out →
      (out.1 ≠ [] → 0 < out.2.1) := by
  intro bs
  induction bs with
  | nil =>
      intro acc out h heq
      simp only [processBatches, Except.ok.injEq] at heq
      subst heq
      exact h
  | cons batch rest ih =>
      intro acc out h heq
      rw [processBatches] at heq
      cases hsg : search_gene_in_genome_batch call term st batch with
      | error e => rw [hsg] at heq; simp at heq
      | ok rs =>
          rw [hsg] at heq
          exact ih _ out (foldl_accum_inv rs acc h) heq

/-- C3: (a) every per-term summary produced by the engine has `success =
true` whenever its feature list is nonempty (so the `success == true`
qualification of the claim is vacuously preserved by the populated cells);
(b) under that invariant, the matrix built by `create_genome_role_matrix`
is 0-initialized over the full cross product and a cell
`matrix[entity][term]` equals 1 exactly when some merged result for that
term has `success == true` and contains a feature whose genome id equals
that (declared) entity. -/
theorem claim_C3_matrix_cells :
    (∀ (call : String → String → Bool × List Feature) (term : String)
        (gids : List String) (st : String) (rs : SearchResultR),
        searchTermSummary call term gids st = Except.ok rs →
        rs.features ≠ [] → rs.success = true) ∧
    (∀ (tracks : List (List SearchResultR)) (gids : List String) (g r : String),
        (∀ res ∈ tracks.flatten, res.features ≠ [] → res.success = true) →
        create_genome_role_matrix tracks gids g r =
          if g ∈ gids ∧ ∃ res ∈ tracks.flatten, res.success = true ∧
              res.search_term = r ∧ ∃ f ∈ res.features, f.genome_id = g
          then 1 else 0) := by
  constructor
  · intro call term gids st rs heq hne
    unfold searchTermSummary at heq
    cases hpb : processBatches call term st (genomeBatches gids 20) ([], 0, []) with
    | error e => rw [hpb] at heq; simp at heq
    | ok acc =>
        rw [hpb] at heq
        simp only [Except.ok.injEq] at heq
        subst heq
        have hpos : acc.1 ≠ [] → 0 < acc.2.1 :=
          processBatches_inv call term st (genomeBatches gids 20) ([], 0, []) acc
            (fun hcon => absurd rfl hcon) hpb
        simp only [decide_eq_true_eq]
        exact hpos hne
  · intro tracks gids g r hinv
    unfold create_genome_role_matrix
    rw [mergeResults_cell]
    refine if_congr ?_ rfl rfl
    constructor
    · rintro ⟨hg, res, hres, hterm, f, hf, hfg⟩
      exact ⟨hg, res, hres, hinv res hres (List.ne_nil_of_mem hf), hterm, f, hf, hfg⟩
    · rintro ⟨hg, res, hres, _, hterm, f, hf, hfg⟩
      exact ⟨hg, res, hres, hterm, f, hf, hfg⟩

/-- Witness for C3: Scenario B — one successful `copA` result carrying a
feature for E1, merged over the roster E1, E2, E3; the E1 cell is 1. -/
theorem claim_C3_witness :
    (⟨"copA", "gene", 1, true, [⟨"E1"⟩], [("E1", 1)]⟩ : SearchResultR).success = true ∧
    create_genome_role_matrix [[⟨"copA", "gene", 1, true, [⟨"E1"⟩], [("E1", 1)]⟩]]
        ["E1", "E2", "E3"] "E1" "copA" = 1 := by
  constructor
  · exact claim_C3_matrix_cells.1 (fun _ _ => (true, [⟨"E1"⟩])) "copA" ["E1"] "gene"
      ⟨"copA", "gene", 1, true, [⟨"E1"⟩], [("E1", 1)]⟩ rfl (by decide)
  · have h := claim_C3_matrix_cells.2
      [[⟨"copA", "gene", 1, true, [⟨"E1"⟩], [("E1", 1)]⟩]] ["E1", "E2", "E3"]
      "E1" "copA" (by decide)
    rw [h]
    decide

/-- C4 (code slip): an unsupported `search_type` — here `'keyword'`, which
the docstrings of `shared_utilities.py` list as valid and which
`track2_copper_homeostasis.py`, `track3_sod_systems.py` and
`test_bacterial_amyloids.py` actually pass — raises `ValueError` inside the
first genome search of the first term, and no handler in
`batch_search_across_genomes` catches it: the whole run aborts with the
error instead of downgrading the failure to a zero-hit batch, whatever the
network oracle would have answered. -/
theorem claim_C4_unsupported_search_type_fatal
    (call : String → String → Bool × List Feature) :
    batch_search_across_genomes call ["copper homeostasis", "copper transport"]
        ["G1", "G2"] "keyword" = Except.error PyError.valueError := rfl

theorem search_gene_ok (call : String → String → Bool × List Feature)
    (term g st : String) (h : st = "gene" ∨ st = "product") :
    ∃ r, search_gene_in_genome call term g st = Except.ok r := by
  unfold search_gene_in_genome
  rw [if_pos h]
  dsimp only
  by_cases hb : (call term g).1 = true
  · exact ⟨_, by rw [if_pos hb]⟩
  · exact ⟨_, by rw [if_neg hb]⟩

theorem batch_ok (call : String → String → Bool × List Feature)
    (term st : String) (h : st = "gene" ∨ st = "product") :
    ∀ gs : List String, ∃ rs, search_gene_in_genome_batch call term st gs = Except.ok rs := by
  intro gs
  induction gs with
  | nil => exact ⟨[], rfl⟩
  | cons g gs ih =>
      obtain ⟨r, hr⟩ := search_gene_ok call term g st h
      obtain ⟨rs, hrs⟩ := ih
      exact ⟨r :: rs, by rw [search_gene_in_genome_batch, hr, hrs]⟩

theorem processBatches_ok (call : String → String → Bool × List Feature)
    (term st : String) (h : st = "gene" ∨ st = "product") :
    ∀ (bs : List (List String)) (acc : List Feature × Nat × List (String × Nat)),
      ∃ out, processBatches call term st bs acc = Except.ok out := by
  intro bs
  induction bs with
  | nil => intro acc; exact ⟨acc, rfl⟩
  | cons batch rest ih =>
      intro acc
      obtain ⟨rs, hrs⟩ := batch_ok call term st h batch
      obtain ⟨out, hout⟩ := ih (rs.foldl accumResult acc)
      refine ⟨out, ?_⟩
      rw [processBatches, hrs]
      exact hout

theorem summary_ok (call : String → String → Bool × List Feature)
    (term : String) (gids : List String) (st : String)
    (h : st = "gene" ∨ st = "product") :
    ∃ rs, searchTermSummary call term gids st = Except.ok rs := by
  obtain ⟨out, hout⟩ := processBatches_ok call term st h (genomeBatches gids 20) ([], 0, [])
  exact ⟨_, by rw [searchTermSummary, hout]⟩

theorem runTerms_ok (call : String → String → Bool × List Feature)
    (gids : List String) (st : String) (h : st = "gene" ∨ st = "product") :
    ∀ ts : List String, ∃ out, runTerms call gids st ts = Except.ok out := by
  intro ts
  induction ts with
  | nil => exact ⟨[], rfl⟩
  | cons t ts ih =>
      obtain ⟨r, hr⟩ := summary_ok call t gids st h
      obtain ⟨rs, hrs⟩ := ih
      exact ⟨r :: rs, by rw [runTerms, hr, hrs]⟩

theorem summary_empty_gids (call : String → String → Bool × List Feature)
    (t st : String) :
    searchTermSummary call t [] st = Except.ok ⟨t, st, 0, false, [], []⟩ := rfl

theorem runTerms_empty_gids (call : String → String → Bool × List Feature)
    (st : String) :
    ∀ ts : List String,
      runTerms call [] st ts =
        Except.ok (ts.map fun t => (⟨t, st, 0, false, [], []⟩ : SearchResultR)) := by
  intro ts
  induction ts with
  | nil => rfl
  | cons t ts ih => rw [runTerms, summary_empty_gids, ih, List.map_cons]

/-- C5 counterexample: with an empty entity roster (and a nonempty term
set) `batch_search_across_genomes` does not fail at all — it returns
normally with a zero-hit summary for the term — refuting the claim that an
empty entity roster is a run-fatal pre-flight condition that fails fast
with a clear error. -/
theorem claim_C5_counterexample :
    batch_search_across_genomes (fun _ _ => (true, [])) ["copA"] [] "gene" =
      Except.ok [⟨"copA", "gene", 0, false, [], []⟩] := rfl

/-- C5 amended: in `batch_search_across_genomes`, (1) an empty term set is
run-fatal — the summary statistics raise `ZeroDivisionError` — and since no
search iteration runs, this happens before any network activity (the
result does not depend on the oracle); (2) an empty entity roster is not
fatal: the call returns normally with a zero-hit summary per term and
touches no network (only the driver `test_2_terms_all_genomes` guards the
empty roster, printing an error and returning before any search); (3) with
a nonempty term set and a supported `search_type` (`'gene'` or
`'product'`), the engine always returns normally whatever the per-call
outcomes — so at engine level the empty term set (and the unsupported
`search_type` of C4) are the only run-fatal conditions. -/
theorem claim_C5_amended (call : String → String → Bool × List Feature)
    (terms gids : List String) (st : String) :
    (terms = [] →
      batch_search_across_genomes call terms gids st =
        Except.error PyError.zeroDivisionError) ∧
    (gids = [] → terms ≠ [] →
      batch_search_across_genomes call terms gids st =
        Except.ok (terms.map fun t => (⟨t, st, 0, false, [], []⟩ : SearchResultR))) ∧
    (terms ≠ [] → (st = "gene" ∨ st = "product") →
      ∃ rs, batch_search_across_genomes call terms gids st = Except.ok rs) := by
  refine ⟨?_, ?_, ?_⟩
  · rintro rfl
    rfl
  · rintro rfl hne
    unfold batch_search_across_genomes
    rw [runTerms_empty_gids call st terms]
    show (if terms.length = 0 then Except.error PyError.zeroDivisionError
        else Except.ok (terms.map fun t => (⟨t, st, 0, false, [], []⟩ : SearchResultR))) = _
    rw [if_neg (by simpa using hne)]
  · intro hne hst
    obtain ⟨rs, hrs⟩ := runTerms_ok call gids st hst terms
    refine ⟨rs, ?_⟩
    unfold batch_search_across_genomes
    rw [hrs]
    show (if terms.length = 0 then Except.error PyError.zeroDivisionError
        else Except.ok rs) = Except.ok rs
    rw [if_neg (by simpa using hne)]

/-- Witness for C5: the three amended behaviors on concrete inputs. -/
theorem claim_C5_witness :
    batch_search_across_genomes (fun _ _ => (false, [])) [] ["G1"] "gene" =
      Except.error PyError.zeroDivisionError ∧
    batch_search_across_genomes (fun _ _ => (false, [])) ["sodA"] [] "gene" =
      Except.ok [⟨"sodA", "gene", 0, false, [], []⟩] ∧
    ∃ rs, batch_search_across_genomes (fun _ _ => (false, [])) ["sodA"] ["G1"] "gene" =
      Except.ok rs :=
  ⟨(claim_C5_amended (fun _ _ => (false, [])) [] ["G1"] "gene").1 rfl,
    (claim_C5_amended (fun _ _ => (false, [])) ["sodA"] [] "gene").2.1 rfl (by decide),
    (claim_C5_amended (fun _ _ => (false, [])) ["sodA"] ["G1"] "gene").2.2 (by decide)
      (Or.inl rfl)⟩

end FIG
